import Mathlib

/-!
Verification of the TestFlight slot-checker repository.

The development shallowly embeds the two Python source files
(`testflight_checker.py` and `testflight_manager.py`): page text is a
`List Char`, HTTP interactions are represented by their outcomes
(transport error or a response with a status code and body), the
persisted JSON config file is represented by an abstract file state,
and the per-tick logic of `check_testflight_slot` is translated
line by line into pure functions.
-/

set_option autoImplicit false

namespace TestFlight

/-- Page text and other strings are modelled as lists of characters. -/
abbrev Text := List Char

/-- The three classification outcomes of `check_testflight_slot`
(the Python strings "available", "full", "unknown"). -/
inductive SlotState where
  | available
  | full
  | unknown
  deriving DecidableEq, Repr

/-- ASCII apostrophe, spelled out so marker strings stay plain. -/
def apostrophe : Char := Char.ofNat 39

/-- Marker string "View in TestFlight" from line 140 of the checker. -/
def viewMarker : Text := "View in TestFlight".data

/-- Marker string "Testing Apps with TestFlight" from line 140 of the checker. -/
def testingMarker : Text := "Testing Apps with TestFlight".data

/-- Marker string "This beta is full" from line 147 of the checker. -/
def betaFullMarker : Text := "This beta is full".data

/-- Marker string from line 147 of the checker: the phrase
"This beta is not accepting any new testers" written with an
apostrophe contraction in the source. -/
def notAcceptingMarker : Text :=
  "This beta isn".data ++ [apostrophe] ++ "t accepting any new testers".data

/-- Index of the first occurrence of `needle` in `hay`, as computed by
Python `str.find` (which scans left to right), or `none` when `needle`
does not occur. The empty needle occurs at index 0. -/
def strFind : Text → Text → Option Nat
  | [], needle => if needle.isPrefixOf [] then some 0 else none
  | c :: rest, needle =>
    if needle.isPrefixOf (c :: rest) then some 0
    else (strFind rest needle).map (fun n => n + 1)

/-- Python's `needle in hay` containment test. -/
def containsSub (hay needle : Text) : Bool := (strFind hay needle).isSome

/-- Python `str.find` proper: first index, or -1 when absent. -/
def pyFind (hay needle : Text) : Int :=
  match strFind hay needle with
  | some i => (i : Int)
  | none => -1

/-- `needle` occurs in `hay` starting at index `i`. -/
def occursAt (hay needle : Text) (i : Nat) : Prop := needle <+: hay.drop i

/-- `i` is the first index at which `needle` occurs in `hay`. -/
def firstOccursAt (hay needle : Text) (i : Nat) : Prop :=
  occursAt hay needle i ∧ ∀ j, j < i → ¬ occursAt hay needle j

/-- `needle` occurs somewhere in `hay`. -/
def occursIn (hay needle : Text) : Prop := ∃ i, occursAt hay needle i

/-- The state classifier of `check_testflight_slot` (checker lines 139-150):
if both the "View in TestFlight" and "Testing Apps with TestFlight"
markers are present, compare their first-occurrence offsets; else check
the two "beta is full" phrasings; otherwise the state is unknown. -/
def classify (text : Text) : SlotState :=
  if containsSub text viewMarker && containsSub text testingMarker then
    if pyFind text viewMarker < pyFind text testingMarker then .available else .full
  else if containsSub text betaFullMarker || containsSub text notAcceptingMarker then .full
  else .unknown

/-- Page body in which the "View in TestFlight" marker occurs strictly
before the "Testing Apps with TestFlight" marker. -/
def availBody : Text := viewMarker ++ testingMarker

/-- Page body containing only the "This beta is full" marker. -/
def fullBody : Text := betaFullMarker

/-- Result of one run of the state-change block of `check_testflight_slot`
(checker lines 152-165): whether `send_discord_notification` was called,
and the value of `last_state` afterwards. -/
structure TickResult where
  notified : Bool
  last_state : Option SlotState
  deriving DecidableEq, Repr

/-- The state-change block of `check_testflight_slot` (checker lines
152-165): when the current state differs from the stored one, notify on
a transition to "available", or on "full" when the stored state was
"available", and record the new state; otherwise change nothing. -/
def handle_state_change (last : Option SlotState) (current : SlotState) : TickResult :=
  if some current ≠ last then
    if current = .available then ⟨true, some current⟩
    else if current = .full ∧ last = some .available then ⟨true, some current⟩
    else ⟨false, some current⟩
  else ⟨false, last⟩

/-- Notify-worthy transitions, in the words of the specification: a slot
opened (previous state not Available, new state Available) or a slot
closed (previous state Available, new state Full). -/
def NotifyWorthy (last : Option SlotState) (current : SlotState) : Prop :=
  (last ≠ some .available ∧ current = .available) ∨
    (last = some .available ∧ current = .full)

instance (last : Option SlotState) (current : SlotState) :
    Decidable (NotifyWorthy last current) := by
  unfold NotifyWorthy
  infer_instance

/-- Default cooldown named by the specification: 5 minutes, in seconds.
The checker source contains no such constant; it is recorded here only
to state the suppression claim against the code. -/
def cooldown : Nat := 300

/-- Successive runs of the state-change block over a list of ticks,
each tick carrying the wall-clock time of the tick and the state the
classifier produced. Returns the times of the ticks on which a
notification was dispatched. The code consults only the stored state,
never the clock. -/
def run_ticks : Option SlotState → List (Nat × SlotState) → List Nat
  | _, [] => []
  | last, (now, current) :: rest =>
    let r := handle_state_change last current
    if r.notified then now :: run_ticks r.last_state rest
    else run_ticks r.last_state rest

/-- Times of the notify-worthy transitions of a tick sequence, with the
stored state updated to the classified state after every tick. -/
def worthy_times : Option SlotState → List (Nat × SlotState) → List Nat
  | _, [] => []
  | last, (now, current) :: rest =>
    if NotifyWorthy last current then now :: worthy_times (some current) rest
    else worthy_times (some current) rest

/-- An HTTP response as the `requests` library hands it back: a status
code and a body. -/
structure HTTPResponse where
  code : Nat
  body : Text
  deriving DecidableEq, Repr

/-- Outcome of one HTTP request: either the library raised (timeout,
connection error) or it produced a response. -/
inductive RequestOutcome where
  | exn
  | resp (r : HTTPResponse)
  deriving DecidableEq, Repr

/-- make_safe_request (checker lines 53-76): performs the request,
calls raise_for_status — which raises on any status in 400-599 — and
returns the response, or None when anything raised. -/
def make_safe_request : RequestOutcome → Option HTTPResponse
  | .exn => none
  | .resp r => if 400 ≤ r.code ∧ r.code < 600 then none else some r

/-- Truthiness of the value make_safe_request hands back, as the
callers evaluate it with `if response:` — None is falsy, and a
response object is truthy exactly when its status code is below 400
(the `ok` predicate of the requests library). -/
def response_truthy : Option HTTPResponse → Bool
  | none => false
  | some r => decide (r.code < 400)

/-- JSON values, restricted to the shapes the config file and the
webhook payload use: null, strings, and string-keyed objects. -/
inductive Json where
  | null
  | str (s : Text)
  | obj (fields : List (Text × Json))

/-- The webhook payload built on checker line 115: a JSON object with
the single field content holding the message. -/
def notification_payload (message : Text) : Json :=
  Json.obj [("content".data, Json.str message)]

/-- send_discord_notification (checker lines 108-125): when the webhook
URL is configured, POST the payload through make_safe_request and log
success when the returned value is truthy; when it is not configured,
skip the POST entirely. Returns the body POSTed (none when skipped)
and whether the send was logged as successful. -/
def send_discord_notification (webhookSet : Bool) (message : Text) (o : RequestOutcome) :
    Option Json × Bool :=
  if webhookSet then (some (notification_payload message), response_truthy (make_safe_request o))
  else (none, false)

/-- Notification text of checker line 156. -/
def available_message (app_name url : Text) : Text :=
  "🚀 TestFlight slots for ".data ++ app_name ++ " are AVAILABLE!\n- Web Link: ".data ++ url

/-- Notification text of checker line 159. -/
def filled_message (app_name url : Text) : Text :=
  "❌ TestFlight slot for ".data ++ app_name ++ " is FILLED.\n- Web Link: ".data ++ url

/-- Outcome of `check_testflight_slot` for one target on one tick:
whether `send_discord_notification` was invoked, whether that call
logged a successful delivery, and the stored state afterwards. -/
structure CheckResult where
  attempted : Bool
  delivered : Bool
  last_state : Option SlotState
  deriving DecidableEq, Repr

/-- check_testflight_slot (checker lines 127-168): fetch the page; when
the fetch came back falsy — None after a raise or an HTTP-error status,
or a response whose status is not below 400 — log and return with the
stored state untouched; otherwise classify the body, run the
state-change block, and on the two notify-worthy branches send the
corresponding message. The result of the send is ignored: `last_state`
is set to the classified state on every state change, delivered or
not. -/
def check_testflight_slot (webhookSet : Bool) (app_name url : Text)
    (fetch post : RequestOutcome) (last : Option SlotState) : CheckResult :=
  match make_safe_request fetch with
  | none => ⟨false, false, last⟩
  | some response =>
    if response.code < 400 then
      let current := classify response.body
      let r := handle_state_change last current
      if r.notified then
        let msg := if current = .available then available_message app_name url
          else filled_message app_name url
        ⟨true, (send_discord_notification webhookSet msg post).2, r.last_state⟩
      else ⟨false, false, r.last_state⟩
    else ⟨false, false, last⟩

/-- One target's inputs for one tick of the poll cycle: its name and
URL, the outcome of the page fetch, the outcome the webhook POST would
have, and the stored state. -/
structure TargetTick where
  app_name : Text
  url : Text
  fetch : RequestOutcome
  post : RequestOutcome
  last : Option SlotState
  deriving DecidableEq, Repr

/-- The for-loop of main (checker lines 183-190): every target is
checked in sequence, one target's outcome never touching the next. -/
def run_cycle (webhookSet : Bool) : List TargetTick → List CheckResult
  | [] => []
  | t :: rest =>
    check_testflight_slot webhookSet t.app_name t.url t.fetch t.post t.last ::
      run_cycle webhookSet rest

/-- Outcome of one attempt to write the config file. -/
inductive WriteOutcome where
  | ok
  | writeError
  deriving DecidableEq, Repr

/-- save_apps (checker lines 99-106) wraps the write in a blanket
try/except Exception and logs any failure: seen from its caller the
call never raises, whatever the write outcome. -/
def save_apps_raises : WriteOutcome → Bool
  | .ok => false
  | .writeError => false

/-- The while-loop of main (checker lines 182-193): run a cycle, call
save_apps, sleep, repeat. A raising save would abort the loop; since
save_apps absorbs every failure, the loop always proceeds to the next
cycle. -/
def run_cycles (webhookSet : Bool) :
    List (List TargetTick × WriteOutcome) → List (List CheckResult)
  | [] => []
  | (targets, w) :: rest =>
    let res := run_cycle webhookSet targets
    if save_apps_raises w then [res]
    else res :: run_cycles webhookSet rest

/-- One stored entry of the config file: either the older bare-URL
string form, or the structured form with url and last_state fields. -/
inductive Entry where
  | bare (url : Text)
  | structured (url : Text) (last_state : Option SlotState)
  deriving DecidableEq, Repr

/-- The persisted target map: app name to entry, in insertion order. -/
abbrev Store := List (Text × Entry)

/-- State of the config file on disk. -/
inductive FileState where
  | absent
  | corrupt
  | parsed (apps : Store)
  deriving DecidableEq, Repr

/-- load_config (checker lines 78-97): when the file is absent, write
the default content (when one was given) and return it; when the file
is present but not valid JSON, catch the decode error and return the
default, leaving the file exactly as it was; otherwise return the
parsed content. Returns the map and the file state afterwards. -/
def load_config (default_content : Option Store) (fs : FileState) : Store × FileState :=
  match fs with
  | .absent =>
    match default_content with
    | some d => (d, .parsed d)
    | none => ([], .absent)
  | .corrupt => (default_content.getD [], .corrupt)
  | .parsed s => (s, .parsed s)

/-- load_apps (manager lines 86-100): when the file is absent, create
it empty; when it is present but corrupted, reset it to empty; in both
cases return the empty map, and otherwise the parsed content. -/
def load_apps (fs : FileState) : Store × FileState :=
  match fs with
  | .absent => ([], .parsed [])
  | .corrupt => ([], .parsed [])
  | .parsed s => (s, .parsed s)

/-- The string the checker stores for each slot state. -/
def state_string : SlotState → Text
  | .available => "available".data
  | .full => "full".data
  | .unknown => "unknown".data

/-- JSON form of a stored last_state value: the state string, or null
before the first classification. -/
def encode_state : Option SlotState → Json
  | none => .null
  | some s => .str (state_string s)

/-- JSON form of one config entry, as json.dump writes it. -/
def encode_entry : Entry → Json
  | .bare url => .str url
  | .structured url st => .obj [("url".data, .str url), ("last_state".data, encode_state st)]

/-- JSON form of the whole target map, as json.dump writes it. -/
def encode_store (s : Store) : Json :=
  .obj (s.map (fun p => (p.1, encode_entry p.2)))

/-- Reading a stored last_state value back from its JSON form. -/
def decode_state : Json → Option (Option SlotState)
  | .null => some none
  | .str t =>
    if t = "available".data then some (some .available)
    else if t = "full".data then some (some .full)
    else if t = "unknown".data then some (some .unknown)
    else none
  | .obj _ => none

/-- Reading one config entry back from its JSON form. -/
def decode_entry : Json → Option Entry
  | .str url => some (.bare url)
  | .obj fields =>
    match fields.lookup "url".data, fields.lookup "last_state".data with
    | some (.str url), some stJson => (decode_state stJson).map (Entry.structured url)
    | _, _ => none
  | .null => none

/-- Reading the fields of the top-level JSON object back one by one;
any undecodable entry fails the whole read. -/
def decode_fields : List (Text × Json) → Option Store
  | [] => some []
  | (name, j) :: rest =>
    match decode_entry j, decode_fields rest with
    | some e, some s => some ((name, e) :: s)
    | _, _ => none

/-- Reading the whole target map back from its JSON form. -/
def decode_store : Json → Option Store
  | .obj fields => decode_fields fields
  | _ => none

/-- save_apps with a successful write (checker lines 99-106) overwrites
the file with exactly the dumped map. -/
def save_apps_file (s : Store) : FileState := .parsed s

/-- What main does after loading: exit with status 0 on an empty map,
or enter the polling loop. -/
inductive MainResult where
  | exited (code : Nat)
  | looping (apps : Store)
  deriving DecidableEq, Repr

/-- The startup of main (checker lines 173-182): load the config with
default content an empty map; when no apps are configured, log a
warning and sys.exit(0) before the loop; otherwise enter the loop with
the loaded apps. Returns the outcome and the file state afterwards. -/
def main_startup (fs : FileState) : MainResult × FileState :=
  let r := load_config (some []) fs
  if r.1 = [] then (MainResult.exited 0, r.2) else (MainResult.looping r.1, r.2)

/-- validate_discord_webhook (manager lines 61-81): check the URL
format — the regex match is modelled by the boolean fmt — then POST a
fixed test message directly and succeed exactly on status 204. -/
def validate_discord_webhook (fmt : Bool) (o : RequestOutcome) : Bool :=
  if fmt then
    match o with
    | .exn => false
    | .resp r => r.code == 204
  else false

end TestFlight

namespace TestFlight

theorem occursAt_nil_iff (needle : Text) (i : Nat) :
    occursAt [] needle i ↔ needle = [] := by
  simp [occursAt, List.prefix_iff_eq_take]

theorem occursAt_cons_succ (c : Char) (rest needle : Text) (j : Nat) :
    occursAt (c :: rest) needle (j + 1) ↔ occursAt rest needle j := by
  simp [occursAt]

theorem occursAt_zero (hay needle : Text) :
    occursAt hay needle 0 ↔ needle <+: hay := by
  simp [occursAt]

theorem strFind_eq_some_iff (hay needle : Text) (i : Nat) :
    strFind hay needle = some i ↔ firstOccursAt hay needle i := by
  induction hay generalizing i with
  | nil =>
    by_cases hp : needle.isPrefixOf ([] : Text)
    · have hnil : needle = [] := by
        simpa using (List.isPrefixOf_iff_prefix.mp hp)
      subst hnil
      constructor
      · intro h
        simp [strFind] at h
        subst h
        exact ⟨by simp [occursAt], fun j hj => absurd hj (Nat.not_lt_zero j)⟩
      · rintro ⟨_, hmin⟩
        rcases Nat.eq_zero_or_pos i with h0 | h0
        · simp [strFind, h0]
        · exact absurd (by simp [occursAt]) (hmin 0 h0)
    · have hne : ¬ needle <+: ([] : Text) := fun h => hp (List.isPrefixOf_iff_prefix.mpr h)
      constructor
      · intro h
        simp [strFind, hp] at h
      · rintro ⟨hocc, _⟩
        exact absurd ((occursAt_nil_iff needle i).mp hocc ▸ List.nil_prefix) hne
  | cons c rest ih =>
    by_cases hp : needle.isPrefixOf (c :: rest)
    · have hpre : needle <+: (c :: rest) := List.isPrefixOf_iff_prefix.mp hp
      constructor
      · intro h
        simp [strFind, hp] at h
        subst h
        exact ⟨(occursAt_zero _ _).mpr hpre, fun j hj => absurd hj (Nat.not_lt_zero j)⟩
      · rintro ⟨hocc, hmin⟩
        rcases Nat.eq_zero_or_pos i with h0 | h0
        · simp [strFind, hp, h0]
        · exact absurd ((occursAt_zero _ _).mpr hpre) (hmin 0 h0)
    · have hnpre : ¬ needle <+: (c :: rest) := fun h => hp (List.isPrefixOf_iff_prefix.mpr h)
      constructor
      · intro h
        rcases hrest : strFind rest needle with _ | k
        · simp only [strFind, if_neg hp, hrest, Option.map_none'] at h
          cases h
        · simp only [strFind, if_neg hp, hrest, Option.map_some'] at h
          obtain rfl : k + 1 = i := Option.some.inj h
          obtain ⟨hocc, hmin⟩ := (ih k).mp hrest
          refine ⟨(occursAt_cons_succ c rest needle k).mpr hocc, ?_⟩
          intro j hj
          match j with
          | 0 => exact fun hx => hnpre ((occursAt_zero _ _).mp hx)
          | j + 1 =>
            exact fun hx => hmin j (Nat.lt_of_succ_lt_succ hj)
              ((occursAt_cons_succ c rest needle j).mp hx)
      · rintro ⟨hocc, hmin⟩
        match i with
        | 0 => exact absurd ((occursAt_zero _ _).mp hocc) hnpre
        | i + 1 =>
          have hocc' := (occursAt_cons_succ c rest needle i).mp hocc
          have hmin' : ∀ j, j < i → ¬ occursAt rest needle j := by
            intro j hj h
            exact hmin (j + 1) (Nat.succ_lt_succ hj)
              ((occursAt_cons_succ c rest needle j).mpr h)
          have := (ih i).mpr ⟨hocc', hmin'⟩
          simp [strFind, hp, this]

theorem strFind_eq_none_iff (hay needle : Text) :
    strFind hay needle = none ↔ ∀ i, ¬ occursAt hay needle i := by
  induction hay with
  | nil =>
    by_cases hp : needle.isPrefixOf ([] : Text)
    · have hnil : needle = [] := by
        simpa using (List.isPrefixOf_iff_prefix.mp hp)
      subst hnil
      simp only [strFind, if_pos hp]
      constructor
      · intro h; cases h
      · intro h; exact absurd (by simp [occursAt]) (h 0)
    · have hne : ¬ needle <+: ([] : Text) := fun h => hp (List.isPrefixOf_iff_prefix.mpr h)
      simp only [strFind, if_neg hp]
      constructor
      · intro _ i hocc
        exact hne (((occursAt_nil_iff needle i).mp hocc) ▸ List.nil_prefix)
      · intro _; trivial
  | cons c rest ih =>
    by_cases hp : needle.isPrefixOf (c :: rest)
    · have hpre : needle <+: (c :: rest) := List.isPrefixOf_iff_prefix.mp hp
      simp only [strFind, if_pos hp]
      constructor
      · intro h; cases h
      · intro h; exact absurd ((occursAt_zero _ _).mpr hpre) (h 0)
    · have hnpre : ¬ needle <+: (c :: rest) := fun h => hp (List.isPrefixOf_iff_prefix.mpr h)
      simp only [strFind, if_neg hp, Option.map_eq_none']
      rw [ih]
      constructor
      · intro h i
        match i with
        | 0 => exact fun hocc => hnpre ((occursAt_zero _ _).mp hocc)
        | i + 1 => exact fun hocc => h i ((occursAt_cons_succ c rest needle i).mp hocc)
      · intro h i hocc
        exact h (i + 1) ((occursAt_cons_succ c rest needle i).mpr hocc)

theorem containsSub_iff_occursIn (hay needle : Text) :
    containsSub hay needle = true ↔ occursIn hay needle := by
  constructor
  · intro h
    rw [containsSub, Option.isSome_iff_exists] at h
    obtain ⟨i, hi⟩ := h
    exact ⟨i, ((strFind_eq_some_iff hay needle i).mp hi).1⟩
  · rintro ⟨i, hi⟩
    rw [containsSub, Option.isSome_iff_exists]
    rcases h : strFind hay needle with _ | k
    · exact absurd hi ((strFind_eq_none_iff hay needle).mp h i)
    · exact ⟨k, rfl⟩

theorem containsSub_eq_true (hay needle : Text) (h : occursIn hay needle) :
    containsSub hay needle = true :=
  (containsSub_iff_occursIn hay needle).mpr h

theorem containsSub_eq_false (hay needle : Text) (h : ¬ occursIn hay needle) :
    containsSub hay needle = false := by
  cases hb : containsSub hay needle
  · rfl
  · exact absurd ((containsSub_iff_occursIn hay needle).mp hb) h

/-- C1: the classifier is a pure function from page text to one of the
three states available, full, unknown, applied in rule order: when both
the "View in TestFlight" and "Testing Apps with TestFlight" markers
occur, the state is available exactly when the first occurrence of the
former is strictly before the first occurrence of the latter and full
otherwise; else when either "beta is full" phrasing occurs the state is
full; else it is unknown. Identical texts classify identically. -/
theorem classify_rules (t : Text) :
    (classify t = .available ∨ classify t = .full ∨ classify t = .unknown) ∧
    (∀ t2, t = t2 → classify t = classify t2) ∧
    (∀ i j, firstOccursAt t viewMarker i → firstOccursAt t testingMarker j →
      classify t = if i < j then .available else .full) ∧
    ((¬ occursIn t viewMarker ∨ ¬ occursIn t testingMarker) →
      (occursIn t betaFullMarker ∨ occursIn t notAcceptingMarker) →
      classify t = .full) ∧
    ((¬ occursIn t viewMarker ∨ ¬ occursIn t testingMarker) →
      ¬ occursIn t betaFullMarker → ¬ occursIn t notAcceptingMarker →
      classify t = .unknown) := by
  refine ⟨?_, ?_, ?_, ?_, ?_⟩
  · unfold classify
    split
    · split
      · exact Or.inl rfl
      · exact Or.inr (Or.inl rfl)
    · split
      · exact Or.inr (Or.inl rfl)
      · exact Or.inr (Or.inr rfl)
  · intro t2 h
    rw [h]
  · intro i j hi hj
    have hvi := (strFind_eq_some_iff t viewMarker i).mpr hi
    have htj := (strFind_eq_some_iff t testingMarker j).mpr hj
    have hcv : containsSub t viewMarker = true := by simp [containsSub, hvi]
    have hct : containsSub t testingMarker = true := by simp [containsSub, htj]
    simp only [classify, hcv, hct, Bool.and_self, if_true, pyFind, hvi, htj]
    by_cases hij : i < j
    · rw [if_pos (by exact_mod_cast hij), if_pos hij]
    · rw [if_neg (by exact_mod_cast hij), if_neg hij]
  · intro hmiss hfull
    have hcond : (containsSub t viewMarker && containsSub t testingMarker) = false := by
      rcases hmiss with h | h
      · simp [containsSub_eq_false _ _ h]
      · simp [containsSub_eq_false _ _ h]
    have hor : (containsSub t betaFullMarker || containsSub t notAcceptingMarker) = true := by
      rcases hfull with h | h
      · simp [containsSub_eq_true _ _ h]
      · simp [containsSub_eq_true _ _ h]
    simp [classify, hcond, hor]
  · intro hmiss hbf hna
    have hcond : (containsSub t viewMarker && containsSub t testingMarker) = false := by
      rcases hmiss with h | h
      · simp [containsSub_eq_false _ _ h]
      · simp [containsSub_eq_false _ _ h]
    simp [classify, hcond, containsSub_eq_false _ _ hbf, containsSub_eq_false _ _ hna]

/-- Witness for C1: on a page where "View in TestFlight" occurs at
offset 0 and "Testing Apps with TestFlight" at offset 18, the rules
yield the available state. -/
theorem classify_rules_witness :
    firstOccursAt availBody viewMarker 0 ∧ firstOccursAt availBody testingMarker 18 ∧
      classify availBody = .available := by
  have h1 : firstOccursAt availBody viewMarker 0 :=
    (strFind_eq_some_iff availBody viewMarker 0).mp (by decide)
  have h2 : firstOccursAt availBody testingMarker 18 :=
    (strFind_eq_some_iff availBody testingMarker 18).mp (by decide)
  exact ⟨h1, h2, by simpa using (classify_rules availBody).2.2.1 0 18 h1 h2⟩

theorem handle_state_change_notified (last : Option SlotState) (current : SlotState) :
    (handle_state_change last current).notified = true ↔ NotifyWorthy last current := by
  cases last with
  | none => cases current <;> decide
  | some s => cases s <;> cases current <;> decide

theorem handle_state_change_last (last : Option SlotState) (current : SlotState) :
    (handle_state_change last current).last_state = some current := by
  cases last with
  | none => cases current <;> decide
  | some s => cases s <;> cases current <;> decide

/-- C2: on a successful-fetch tick a notification is dispatched exactly
when the transition is notify-worthy — the previous state was not
Available and the new one is Available, or the previous state was
Available and the new one is Full — and never when the new state equals
the previous one. -/
theorem notification_iff_notify_worthy (last : Option SlotState) (current : SlotState) :
    ((handle_state_change last current).notified = true ↔ NotifyWorthy last current) ∧
    (last = some current → (handle_state_change last current).notified = false) := by
  refine ⟨handle_state_change_notified last current, ?_⟩
  intro h
  subst h
  cases current <;> decide

/-- Witness for C2 at the transition from no stored state to the
available state. -/
theorem notification_iff_notify_worthy_witness :
    ((handle_state_change none .available).notified = true ↔ NotifyWorthy none .available) ∧
    (none = some SlotState.available →
      (handle_state_change none .available).notified = false) :=
  notification_iff_notify_worthy none .available

/-- Counterexample to C3: starting from no stored state, the trace that
classifies available at time 0 and full at time 60 dispatches at both
ticks, although the second notify-worthy transition happens less than
the 5-minute cooldown after the first notification. -/
theorem cooldown_counterexample :
    run_ticks none [(0, .available), (60, .full)] = [0, 60] ∧ 60 - 0 < cooldown := by
  constructor
  · rfl
  · decide

/-- C3 as amended: the checker enforces no cooldown and stores no
last-notification time. On every successful-fetch tick a notify-worthy
transition dispatches immediately, whatever the clock says, and the
stored state is updated to the classified state after every tick. -/
theorem no_cooldown_no_suppression (last : Option SlotState) (trace : List (Nat × SlotState)) :
    run_ticks last trace = worthy_times last trace := by
  induction trace generalizing last with
  | nil => rfl
  | cons p rest ih =>
    obtain ⟨now, current⟩ := p
    by_cases h : NotifyWorthy last current
    · have hn : (handle_state_change last current).notified = true :=
        (handle_state_change_notified last current).mpr h
      simp [run_ticks, worthy_times, hn, h, handle_state_change_last, ih]
    · have hn : (handle_state_change last current).notified = false := by
        cases hb : (handle_state_change last current).notified
        · rfl
        · exact absurd ((handle_state_change_notified last current).mp hb) h
      simp [run_ticks, worthy_times, hn, h, handle_state_change_last, ih]

/-- Counterexample to C4: with the webhook configured, a tick that
fetches an available page but whose webhook POST fails still records
the available state, and the next tick with the same classification
makes no dispatch attempt at all — the failed notification is never
retried. -/
theorem dispatch_failure_not_retried :
    (check_testflight_slot true [] [] (.resp ⟨200, availBody⟩) .exn none).attempted = true ∧
    (check_testflight_slot true [] [] (.resp ⟨200, availBody⟩) .exn none).delivered = false ∧
    (check_testflight_slot true [] [] (.resp ⟨200, availBody⟩) .exn none).last_state
      = some .available ∧
    (check_testflight_slot true [] [] (.resp ⟨200, availBody⟩) (.resp ⟨204, []⟩)
      (some .available)).attempted = false := by
  refine ⟨?_, ?_, ?_, ?_⟩ <;> decide

/-- C4 as amended: the result of the dispatch is ignored — on every
successful fetch the stored state is set to the classified state
whether or not delivery succeeded, and a following tick whose
classification equals the stored state makes no dispatch attempt, so a
failed notification is lost rather than retried. -/
theorem dispatch_failure_state_still_updated (webhookSet : Bool) (app_name url : Text)
    (post : RequestOutcome) (last : Option SlotState) (response : HTTPResponse)
    (h : response.code < 400) :
    (check_testflight_slot webhookSet app_name url (.resp response) post last).last_state
        = some (classify response.body) ∧
    (check_testflight_slot webhookSet app_name url (.resp response) post
        (some (classify response.body))).attempted = false := by
  have hm : make_safe_request (.resp response) = some response := by
    have hr : ¬(400 ≤ response.code ∧ response.code < 600) := by omega
    simp [make_safe_request, hr]
  constructor
  · simp only [check_testflight_slot, hm]
    rw [if_pos h]
    split
    · exact handle_state_change_last _ _
    · exact handle_state_change_last _ _
  · simp [check_testflight_slot, hm, h, handle_state_change]

/-- Witness for C4's amended theorem at a concrete successful fetch. -/
theorem dispatch_failure_state_still_updated_witness :
    (200 : Nat) < 400 ∧
    ((check_testflight_slot true [] [] (.resp ⟨200, availBody⟩) .exn none).last_state
        = some (classify availBody) ∧
      (check_testflight_slot true [] [] (.resp ⟨200, availBody⟩) .exn
        (some (classify availBody))).attempted = false) :=
  ⟨by decide, dispatch_failure_state_still_updated true [] [] .exn none ⟨200, availBody⟩ (by decide)⟩

/-- Counterexample to C5: a 301 status is not a 2xx status, yet the
checker does not treat that fetch as failed — it classifies the body,
attempts a dispatch and updates the stored state, because the requests
library only raises for statuses 400-599 and a response is truthy for
any status below 400. -/
theorem fetch_non2xx_treated_as_success :
    (check_testflight_slot true [] [] (.resp ⟨301, availBody⟩) (.resp ⟨204, []⟩)
        none).attempted = true ∧
    (check_testflight_slot true [] [] (.resp ⟨301, availBody⟩) (.resp ⟨204, []⟩)
        none).last_state = some .available := by
  refine ⟨?_, ?_⟩ <;> decide

/-- C5 as amended: when the fetch for a tick comes back falsy — the
request raised (timeout, network failure), the status was an HTTP
error in 400-599, or the response status was not below 400 — the tick
leaves the stored state unchanged, attempts no notification, and the
cycle continues with the next target. Statuses below 400, not only
2xx, count as successful fetches. -/
theorem fetch_failure_frame (webhookSet : Bool) (app_name url : Text) (post : RequestOutcome)
    (last : Option SlotState) (fetch : RequestOutcome) (rest : List TargetTick)
    (h : response_truthy (make_safe_request fetch) = false) :
    check_testflight_slot webhookSet app_name url fetch post last = ⟨false, false, last⟩ ∧
    run_cycle webhookSet (⟨app_name, url, fetch, post, last⟩ :: rest) =
      ⟨false, false, last⟩ :: run_cycle webhookSet rest := by
  have h1 : check_testflight_slot webhookSet app_name url fetch post last
      = ⟨false, false, last⟩ := by
    rcases hm : make_safe_request fetch with _ | r
    · simp [check_testflight_slot, hm]
    · have hge : ¬ r.code < 400 := by
        intro hlt
        rw [hm] at h
        simp [response_truthy, hlt] at h
      simp [check_testflight_slot, hm, hge]
  exact ⟨h1, by simp [run_cycle, h1]⟩

/-- Witness for C5's amended theorem at a concrete raised request. -/
theorem fetch_failure_frame_witness :
    response_truthy (make_safe_request .exn) = false ∧
    (check_testflight_slot false [] [] .exn .exn none = ⟨false, false, none⟩ ∧
      run_cycle false (⟨[], [], .exn, .exn, none⟩ :: []) =
        ⟨false, false, none⟩ :: run_cycle false []) :=
  ⟨rfl, fetch_failure_frame false [] [] .exn none .exn [] rfl⟩

/-- Counterexample to C6: with the config file unwritable, save_apps
raises nothing and the polling loop runs cycle after cycle — a failing
save is absorbed while polling continues, instead of being fatal. -/
theorem storage_unwritable_not_fatal :
    save_apps_raises .writeError = false ∧
    run_cycles false [([⟨[], [], .resp ⟨200, fullBody⟩, .exn, none⟩], .writeError),
        ([⟨[], [], .resp ⟨200, fullBody⟩, .exn, some .full⟩], .writeError)] =
      [[⟨false, false, some .full⟩], [⟨false, false, some .full⟩]] := by
  refine ⟨rfl, ?_⟩
  decide

/-- C6 as amended: inability to write the persistence location is not
fatal — save_apps catches and logs every write failure, so after any
cycle the loop proceeds to the next one whatever the write outcome. -/
theorem save_failure_absorbed_loop_continues (webhookSet : Bool) (targets : List TargetTick)
    (w : WriteOutcome) (rest : List (List TargetTick × WriteOutcome)) :
    save_apps_raises w = false ∧
    run_cycles webhookSet ((targets, w) :: rest) =
      run_cycle webhookSet targets :: run_cycles webhookSet rest := by
  have hw : save_apps_raises w = false := by cases w <;> rfl
  exact ⟨hw, by simp [run_cycles, hw]⟩

/-- Counterexample to C7: on a present but unparseable file the
checker's load_config returns the empty map but does not reset the
store — the file stays corrupt rather than becoming an empty store. -/
theorem load_config_corrupt_leaves_file :
    (load_config (some []) .corrupt).1 = [] ∧
    (load_config (some []) .corrupt).2 ≠ FileState.parsed [] := by
  refine ⟨rfl, ?_⟩
  decide

/-- C7 as amended: neither loader raises; on an absent file both the
checker's load_config (called with empty default content) and the
manager's load_apps create an empty store and return an empty map; on
an unparseable file both log and return an empty map, but only
load_apps resets the file to an empty store — load_config leaves the
corrupt file as it is. -/
theorem load_behavior_amended (fs : FileState) :
    (fs = .absent →
      load_config (some []) fs = ([], .parsed []) ∧ load_apps fs = ([], .parsed [])) ∧
    (fs = .corrupt →
      (load_config (some []) fs).1 = [] ∧ (load_config (some []) fs).2 = .corrupt ∧
        load_apps fs = ([], .parsed [])) ∧
    (∀ s, fs = .parsed s →
      load_config (some []) fs = (s, .parsed s) ∧ load_apps fs = (s, .parsed s)) := by
  refine ⟨fun h => ?_, fun h => ?_, fun s h => ?_⟩ <;> subst h
  · exact ⟨rfl, rfl⟩
  · exact ⟨rfl, rfl, rfl⟩
  · exact ⟨rfl, rfl⟩

/-- Witness for C7's amended theorem on the absent file. -/
theorem load_behavior_amended_witness :
    load_config (some []) .absent = ([], .parsed []) ∧ load_apps .absent = ([], .parsed []) :=
  (load_behavior_amended .absent).1 rfl

/-- Counterexample to C8: a webhook POST answered with status 200 is
counted as a successful delivery by the checker's send, although 200
is not 204. -/
theorem send_success_not_204_only :
    (send_discord_notification true [] (.resp ⟨200, []⟩)).2 = true ∧ (200 : Nat) ≠ 204 := by
  refine ⟨rfl, ?_⟩
  decide

/-- C8 as amended: with the webhook configured, send POSTs the JSON
object whose single field content holds the message, and counts the
delivery successful exactly when a response came back with a status
below 400 — not only 204. The manager's standalone validate operation
is the one that requires exactly status 204 on top of a well-formed
URL. -/
theorem send_and_validate_amended (message : Text) (o : RequestOutcome) (fmt : Bool) :
    (send_discord_notification true message o).1
        = some (Json.obj [("content".data, Json.str message)]) ∧
    ((send_discord_notification true message o).2 = true ↔
      ∃ r, o = .resp r ∧ r.code < 400) ∧
    (validate_discord_webhook fmt o = true ↔
      fmt = true ∧ ∃ r, o = .resp r ∧ r.code = 204) := by
  refine ⟨rfl, ?_, ?_⟩
  · cases o with
    | exn => simp [send_discord_notification, make_safe_request, response_truthy]
    | resp r =>
      by_cases h : 400 ≤ r.code ∧ r.code < 600
      · have hge : ¬ r.code < 400 := by omega
        simp [send_discord_notification, make_safe_request, response_truthy, h, hge]
      · by_cases hlt : r.code < 400
        · simp [send_discord_notification, make_safe_request, response_truthy, h, hlt]
        · simp [send_discord_notification, make_safe_request, response_truthy, h, hlt]
  · cases fmt with
    | false => simp [validate_discord_webhook]
    | true =>
      cases o with
      | exn => simp [validate_discord_webhook]
      | resp r => simp [validate_discord_webhook, Nat.beq_eq_true_eq]

theorem decode_state_encode_state (st : Option SlotState) :
    decode_state (encode_state st) = some st := by
  cases st with
  | none => rfl
  | some s => cases s <;> rfl

theorem decode_entry_encode_entry (e : Entry) :
    decode_entry (encode_entry e) = some e := by
  cases e with
  | bare url => rfl
  | structured url st =>
    have hb1 : (("url".data : Text) == "url".data) = true := by decide
    have hb2 : (("last_state".data : Text) == "url".data) = false := by decide
    have hb3 : (("url".data : Text) == "last_state".data) = false := by decide
    have hb4 : (("last_state".data : Text) == "last_state".data) = true := by decide
    simp only [encode_entry, decode_entry, List.lookup, hb1, hb2, hb3, hb4,
      decode_state_encode_state, Option.map_some']

theorem decode_store_encode_store (s : Store) :
    decode_store (encode_store s) = some s := by
  induction s with
  | nil => rfl
  | cons p rest ih =>
    obtain ⟨name, e⟩ := p
    simp only [encode_store, List.map_cons, decode_store, decode_fields,
      decode_entry_encode_entry] at *
    simp [ih]

/-- C9: saving the target map and loading it back reproduces an
identical map — the JSON object json.dump writes decodes to exactly
the same set of names with the same url and last_state values, and
load_config on the freshly saved file returns the saved map. -/
theorem save_load_round_trip (s : Store) :
    decode_store (encode_store s) = some s ∧
    (load_config (some []) (save_apps_file s)).1 = s :=
  ⟨decode_store_encode_store s, rfl⟩

/-- C10: when the target map loaded at startup is empty, main exits
with status 0 before entering the loop: no poll cycle runs, nothing is
dispatched, and the file is exactly as load_config left it. -/
theorem main_empty_exits (fs : FileState) (h : (load_config (some []) fs).1 = []) :
    (main_startup fs).1 = .exited 0 ∧
    (main_startup fs).2 = (load_config (some []) fs).2 := by
  constructor
  · simp [main_startup, h]
  · simp [main_startup, h]

/-- Witness for C10 on the absent file, whose load yields the empty map. -/
theorem main_empty_exits_witness :
    (load_config (some []) FileState.absent).1 = [] ∧
    ((main_startup .absent).1 = .exited 0 ∧
      (main_startup .absent).2 = (load_config (some []) .absent).2) :=
  ⟨rfl, main_empty_exits .absent rfl⟩

end TestFlight
